import Mathlib

/-!
Verification of the vision-guard image-processing service.

Shallow embedding of the repository's own code: the extension validators
(`main.py:allowed_file`, `app.py:is_valid_image_extension`), the image
decodability check (`main.py:is_valid_image`, `app.py:is_valid_image_file`),
the quality analyzer (`models/image_analyzer.py`), the background remover
(`models/background_remover.py`) and the request handlers
(`main.py:analyze_image`, `main.py:remove_bg`,
`app.py:show_background_removal`).

External capabilities (PIL decoding, OpenCV Laplacian variance, the rembg
segmentation model, the filesystem) are modelled as explicit inputs: an
`ImgFile` record carries the observable outcomes of each external call on a
given file (does the path exist, do the PIL open/verify calls succeed and
with which dimensions, does the OpenCV grayscale read succeed and with which
Laplacian variance), and the rembg delegate is passed as an `Except` value.
Python exceptions are modelled with `Except PyErr`; Python's `round(x, 2)`
(banker's rounding) is modelled exactly over `ℚ`.
-/

namespace VisionGuard

/-- Python's built-in `round` to the nearest integer: round-half-to-even
(banker's rounding). -/
def pyRoundInt (q : ℚ) : ℤ :=
  if q - (⌊q⌋ : ℚ) = 1/2 then
    (if ⌊q⌋ % 2 = 0 then ⌊q⌋ else ⌊q⌋ + 1)
  else round q

/-- Python's `round(x, 2)`: round to two decimal places, ties to even. -/
def round2 (q : ℚ) : ℚ := (pyRoundInt (q * 100) : ℚ) / 100

/-! ### Extension validation (`main.py` lines 15-19, `app.py` lines 65-72) -/

/-- `ALLOWED_EXTENSIONS` from `main.py` line 15 / `app.py` line 65. -/
def ALLOWED_EXTENSIONS : List String :=
  ["png", "jpg", "jpeg", "gif", "bmp", "tiff", "webp"]

/-- Python's `str.lower()` on ASCII content. -/
def toLowerStr (s : String) : String := String.mk (s.toList.map Char.toLower)

/-- The segment of `cs` after its last `'.'`; the whole list when no dot is
present.  This is `filename.rsplit(".", 1)[1]` when a dot exists, and
`filename.split(".")[-1]` in general. -/
def lastDotSuffix (cs : List Char) : List Char :=
  ((cs.reverse).takeWhile (fun c => c ≠ '.')).reverse

/-- `main.py` lines 17-19: `allowed_file(filename)` returns
`"." in filename and filename.rsplit(".", 1)[1].lower() in ALLOWED_EXTENSIONS`. -/
def allowed_file (filename : String) : Bool :=
  filename.toList.contains '.' &&
    ALLOWED_EXTENSIONS.contains (toLowerStr (String.mk (lastDotSuffix filename.toList)))

/-- `app.py` lines 67-72: `is_valid_image_extension(filename)` returns `False`
for a falsy filename, else checks `filename.split(".")[-1].lower()` against
`ALLOWED_EXTENSIONS`. -/
def is_valid_image_extension (filename : String) : Bool :=
  if filename = "" then false
  else ALLOWED_EXTENSIONS.contains (toLowerStr (String.mk (lastDotSuffix filename.toList)))

/-- The spec's `hasAllowedExtension` predicate, written from the spec's words:
the filename contains a dot and the suffix after the last dot, compared
case-insensitively, is an allowed extension. -/
def hasAllowedExtensionSpec (filename : String) : Prop :=
  filename.toList.contains '.' = true ∧
    ALLOWED_EXTENSIONS.contains (toLowerStr (String.mk (lastDotSuffix filename.toList))) = true

instance (filename : String) : Decidable (hasAllowedExtensionSpec filename) := by
  unfold hasAllowedExtensionSpec; infer_instance

/-! ### Python exceptions and the observable behaviour of one image file -/

/-- A Python exception as the analyzer distinguishes them: `FileNotFoundError`
versus any other `Exception`, each carrying `str(e)`. -/
inductive PyErr where
  | fileNotFound (msg : String)
  | exn (msg : String)
deriving DecidableEq, Repr

/-- `str(e)` of a modelled exception. -/
def pymsg : PyErr → String
  | .fileNotFound m => m
  | .exn m => m

/-- The outcomes of every external call the analyzer can make on one image
path: filesystem existence, PIL open/verify, OpenCV grayscale read. -/
structure ImgFile where
  /-- the path string itself (appears in error messages) -/
  path : String
  /-- `os.path.exists(path)` -/
  onDisk : Bool
  /-- `PIL.Image.open(path).size` when PIL can open the file, `none` when
  `Image.open` raises -/
  dims : Option (Nat × Nat)
  /-- whether `img.verify()` succeeds after a successful open -/
  verifyOk : Bool
  /-- `cv2.imread(path, IMREAD_GRAYSCALE)` followed by
  `cv2.Laplacian(·, CV_64F).var()`: `none` when `imread` returns `None`,
  otherwise the Laplacian variance -/
  lapVar : Option ℚ
  /-- `str(e)` of the exception PIL raises when open or verify fails -/
  pilErr : String
deriving DecidableEq

/-- `str(e)` of the `FileNotFoundError` Python raises when `open`/`Image.open`
hits a missing path. -/
def missingMsg (f : ImgFile) : String :=
  "[Errno 2] No such file or directory: " ++ "'" ++ f.path ++ "'"

/-- The `Image.open(path)` + `img.verify()` sequence (`main.py` lines 24-25,
`app.py` lines 77-78, `image_analyzer.py` lines 102-103): raises
`FileNotFoundError` on a missing path, PIL's exception when the bytes do not
open or verify as an image. -/
def pil_open_verify (f : ImgFile) : Except PyErr Unit :=
  if f.onDisk = false then .error (.fileNotFound (missingMsg f))
  else
    match f.dims with
    | none => .error (.exn f.pilErr)
    | some _ => if f.verifyOk then .ok () else .error (.exn f.pilErr)

/-- `main.py` lines 21-28 / `app.py` lines 74-81: try to open and verify;
`except Exception: return False`.  Always returns a boolean, never raises. -/
def is_valid_image (f : ImgFile) : Except PyErr Bool :=
  match pil_open_verify f with
  | .ok _ => .ok true
  | .error _ => .ok false

/-! ### Quality analyzer (`models/image_analyzer.py`) -/

/-- `image_analyzer.py` lines 6-31: missing path raises `FileNotFoundError`;
a PIL open failure is wrapped as `Failed to analyze resolution: ...`; else
`round(min((width*height / (256*256)) * 100, 100), 2)`. -/
def resolution_score (f : ImgFile) : Except PyErr ℚ :=
  if f.onDisk = false then
    .error (.fileNotFound ("Image file not found: " ++ f.path))
  else
    match f.dims with
    | none => .error (.exn ("Failed to analyze resolution: " ++ f.pilErr))
    | some (w, h) =>
        .ok (round2 (min (((w * h : ℕ) : ℚ) / (256 * 256) * 100) 100))

/-- `image_analyzer.py` lines 33-60: missing path raises `FileNotFoundError`;
a failed grayscale read is wrapped as `Failed to analyze blur: ...`; else
returns whether the raw Laplacian variance is below the threshold. -/
def is_blurry (f : ImgFile) (threshold : ℚ) : Except PyErr Bool :=
  if f.onDisk = false then
    .error (.fileNotFound ("Image file not found: " ++ f.path))
  else
    match f.lapVar with
    | none => .error (.exn
        ("Failed to analyze blur: Could not read image file - may not be a valid image"))
    | some v => .ok (decide (v < threshold))

/-- `image_analyzer.py` lines 62-88: missing path raises `FileNotFoundError`;
a failed grayscale read is wrapped as `Failed to calculate blur score: ...`;
else returns the Laplacian variance rounded to two decimals. -/
def blur_score (f : ImgFile) : Except PyErr ℚ :=
  if f.onDisk = false then
    .error (.fileNotFound ("Image file not found: " ++ f.path))
  else
    match f.lapVar with
    | none => .error (.exn
        ("Failed to calculate blur score: Could not read image file - may not be a valid image"))
    | some v => .ok (round2 v)

/-- The dictionary built by `analyze_image_quality` (`image_analyzer.py`
lines 108-113). -/
structure AnalysisResult where
  resolution_score : ℚ
  is_blurry : Bool
  blur_score : ℚ
  clarity : String
deriving DecidableEq

/-- The `try` block of `analyze_image_quality` (`image_analyzer.py` lines
100-115): verify decodability with PIL, then compute `is_blurry` (default
threshold 100.0), then the result dictionary in evaluation order
(`resolution_score`, the stored blur status, `blur_score`, the derived
clarity label). -/
def analyze_body (f : ImgFile) : Except PyErr AnalysisResult :=
  match pil_open_verify f with
  | .error e => .error e
  | .ok _ =>
    match is_blurry f 100 with
    | .error e => .error e
    | .ok b =>
      match resolution_score f with
      | .error e => .error e
      | .ok rs =>
        match blur_score f with
        | .error e => .error e
        | .ok bs => .ok ⟨rs, b, bs, if b then "Blurry" else "Clear"⟩

/-- The `except` clause of `analyze_image_quality` (`image_analyzer.py`
lines 116-117): any exception from the body — including
`FileNotFoundError` — is caught and re-raised as a generic `Exception` with
message `Image quality analysis failed: str(e)`. -/
def wrapAnalysis : Except PyErr AnalysisResult → Except PyErr AnalysisResult
  | .ok res => .ok res
  | .error e => .error (.exn ("Image quality analysis failed: " ++ pymsg e))

/-- `image_analyzer.py` lines 90-117: the `try` body under the wrapping
`except` clause. -/
def analyze_image_quality (f : ImgFile) : Except PyErr AnalysisResult :=
  wrapAnalysis (analyze_body f)

/-! ### Background remover (`models/background_remover.py`) -/

/-- `background_remover.py` lines 5-27.  The rembg delegate is passed in as
the `Except` outcome of `remove(input_bytes)`.  The returned pair is the
Python result (normal return or raised exception) together with the bytes
written to `output_path` (`none` = output left unwritten). -/
def remove_background (inExists : Bool) (inPath : String)
    (rembg : Except String (List ℕ)) : Except PyErr Unit × Option (List ℕ) :=
  if inExists = false then
    (.error (.fileNotFound ("Input file not found: " ++ inPath)), none)
  else
    match rembg with
    | .error m => (.error (.exn ("Failed to remove background: " ++ m)), none)
    | .ok outBytes => (.ok (), some outBytes)

/-! ### Request handlers -/

/-- The distinct responses of the two Flask handlers in `main.py`. -/
inductive ApiResp where
  | noFile
  | noFilename
  | badExtension
  | notValidImage
  | okAnalysis (r : AnalysisResult)
  | okSendImage
  | serverError (details : String)
deriving DecidableEq

/-- HTTP status code of each response. -/
def statusCode : ApiResp → ℕ
  | .noFile => 400
  | .noFilename => 400
  | .badExtension => 400
  | .notValidImage => 400
  | .okAnalysis _ => 200
  | .okSendImage => 200
  | .serverError _ => 500

/-- One request to a `main.py` handler: presence of the multipart `image`
field, the client-declared filename, the observable behaviour of the staged
temp file holding the uploaded bytes, and the rembg delegate's outcome on
those bytes. -/
structure ApiRequest where
  hasImageField : Bool
  filename : String
  staged : ImgFile
  rembg : Except String (List ℕ)

/-- `main.py` lines 42-93, the `/analyze` handler.  Returns the response,
whether the staged temp file remains on disk at handler exit (`none` = no
temp file was ever created), and whether any decode of the uploaded bytes was
attempted. -/
def analyze_image (r : ApiRequest) : ApiResp × Option Bool × Bool :=
  if r.hasImageField = false then (.noFile, none, false)
  else if r.filename = "" then (.noFilename, none, false)
  else if allowed_file r.filename = false then (.badExtension, none, false)
  else
    match is_valid_image r.staged with
    | .error e => (.serverError (pymsg e), some false, true)
    | .ok false => (.notValidImage, some false, true)
    | .ok true =>
      match analyze_image_quality r.staged with
      | .error e => (.serverError (pymsg e), some false, true)
      | .ok res => (.okAnalysis res, some false, true)

/-- `main.py` lines 95-153, the `/remove-background` handler.  Returns the
response and, when the temp files were created, whether the input temp and
the output temp remain on disk at handler exit: the `finally` block at lines
143-147 unlinks only `input_temp.name`, leaving `output_temp` to
\"be cleaned up by Flask after sending\" on every path. -/
def remove_bg (r : ApiRequest) : ApiResp × Option (Bool × Bool) :=
  if r.hasImageField = false then (.noFile, none)
  else if r.filename = "" then (.noFilename, none)
  else if allowed_file r.filename = false then (.badExtension, none)
  else
    match is_valid_image r.staged with
    | .error e => (.serverError (pymsg e), some (false, true))
    | .ok false => (.notValidImage, some (false, true))
    | .ok true =>
      match (remove_background r.staged.onDisk r.staged.path r.rembg).1 with
      | .error e => (.serverError (pymsg e), some (false, true))
      | .ok _ => (.okSendImage, some (false, true))

/-- The distinct outcomes of the Streamlit background-removal page. -/
inductive UiResp where
  | noUpload
  | badExtension
  | loadError
  | notValidImage
  | processingError (details : String)
  | success
deriving DecidableEq

/-- One interaction with the Streamlit background-removal page: whether a
file was uploaded, its name, whether PIL can open it for display, whether
`is_valid_image_file` finds it decodable, the staged temp file, and the rembg
delegate's outcome. -/
structure UiRequest where
  fileUploaded : Bool
  filename : String
  displayLoadable : Bool
  decodable : Bool
  staged : ImgFile
  rembg : Except String (List ℕ)
  outputLoadable : Bool
  outputLoadErr : String

/-- `app.py` lines 214-323, `show_background_removal`.  Validation (extension,
display load, `is_valid_image_file`) happens before any temp file exists; the
temp files are created at lines 282-283 and the `finally` block at lines
311-316 unlinks both.  Returns the outcome and, when the temp files were
created, whether the input temp and the output temp remain at exit. -/
def show_background_removal (r : UiRequest) : UiResp × Option (Bool × Bool) :=
  if r.fileUploaded = false then (.noUpload, none)
  else if is_valid_image_extension r.filename = false then (.badExtension, none)
  else if r.displayLoadable = false then (.loadError, none)
  else if r.decodable = false then (.notValidImage, none)
  else
    match (remove_background true r.staged.path r.rembg).1 with
    | .error e => (.processingError (pymsg e), some (false, false))
    | .ok _ =>
      if r.outputLoadable = false then
        (.processingError r.outputLoadErr, some (false, false))
      else (.success, some (false, false))

/-! ### Concrete inputs used to instantiate the theorems -/

/-- A healthy staged 256×256 upload whose Laplacian variance is 50. -/
def fGood : ImgFile := ⟨"/tmp/up.png", true, some (256, 256), true, some 50, ""⟩

/-- A staged upload whose bytes PIL cannot open (corrupt JPEG). -/
def fCorrupt : ImgFile :=
  ⟨"/tmp/up.jpg", true, none, false, none, "cannot identify image file"⟩

/-- A path that is absent from the filesystem. -/
def fMissing : ImgFile := ⟨"/tmp/gone.png", false, none, false, none, ""⟩

/-- A decodable image whose Laplacian variance is 99.999: just below the
default threshold, but rounding to two decimals lands exactly on 100. -/
def fAlmostSharp : ImgFile :=
  ⟨"/tmp/up.jpg", true, some (256, 256), true, some (99999/1000), ""⟩

/-- A decodable image whose Laplacian variance is 500 (clearly sharp). -/
def fSharp : ImgFile := ⟨"/tmp/sharp.png", true, some (256, 256), true, some 500, ""⟩

/-- The analysis dictionary `analyze_image_quality` produces for `fGood`. -/
def resGood : AnalysisResult := ⟨100, true, 50, "Blurry"⟩

/-- An API request whose filename has a disallowed extension. -/
def reqBadExt : ApiRequest := ⟨true, "photo.txt", fGood, .ok []⟩

/-- An API request with an allowed extension whose bytes are not decodable. -/
def reqCorrupt : ApiRequest := ⟨true, "photo.jpg", fCorrupt, .ok []⟩

/-- A UI background-removal interaction that reaches the staging step and
then fails inside the rembg delegate. -/
def uiReqFail : UiRequest :=
  ⟨true, "photo.jpg", true, true, fGood, .error "model crashed", true, ""⟩

/-! ### Shared helper lemmas -/

theorem lastDotSuffix_no_dot (cs : List Char) (h : cs.contains '.' = false) :
    lastDotSuffix cs = cs := by
  unfold lastDotSuffix
  rw [List.takeWhile_eq_self_iff.mpr, List.reverse_reverse]
  intro c hc
  rw [List.mem_reverse] at hc
  simp only [decide_eq_true_eq]
  intro hceq
  subst hceq
  have : cs.contains '.' = true := List.elem_eq_true_of_mem hc
  rw [this] at h
  cases h

theorem mk_toList (s : String) : String.mk s.toList = s := rfl

theorem round2_hundred : round2 100 = 100 := by
  unfold round2 pyRoundInt; norm_num

theorem round2_twentyfive : round2 25 = 25 := by
  unfold round2 pyRoundInt; norm_num

theorem round2_fifty : round2 50 = 50 := by
  unfold round2 pyRoundInt; norm_num

theorem round2_near_hundred : round2 (99999/1000) = 100 := by
  unfold round2 pyRoundInt; norm_num [round_eq]

theorem is_blurry_ok_iff (f : ImgFile) (t v : ℚ) (h1 : f.onDisk = true)
    (h2 : f.lapVar = some v) : is_blurry f t = .ok true ↔ v < t := by
  unfold is_blurry
  rw [h1, h2]
  simp

theorem blur_score_ok (f : ImgFile) (v : ℚ) (h1 : f.onDisk = true)
    (h2 : f.lapVar = some v) : blur_score f = .ok (round2 v) := by
  unfold blur_score
  rw [h1, h2]
  simp

/-! ### Claim C2 -/

/-- Claim C2: for every image file whose dimensions can be read,
`resolution_score` returns `min((width*height / (256*256)) * 100, 100)`
rounded to 2 decimals; it returns 100 for a 256×256 image, 25 for a 128×128
image, and clamps to 100 for every image with more than 256*256 pixels. -/
theorem resolution_score_formula :
    ∀ (f : ImgFile) (w h : ℕ), f.onDisk = true → f.dims = some (w, h) →
      resolution_score f =
        .ok (round2 (min (((w * h : ℕ) : ℚ) / (256 * 256) * 100) 100)) ∧
      (w = 256 → h = 256 → resolution_score f = .ok 100) ∧
      (w = 128 → h = 128 → resolution_score f = .ok 25) ∧
      (256 * 256 < w * h → resolution_score f = .ok 100) := by
  intro f w h h1 h2
  have hbase : resolution_score f =
      .ok (round2 (min (((w * h : ℕ) : ℚ) / (256 * 256) * 100) 100)) := by
    unfold resolution_score
    rw [h1, h2]
    simp
  refine ⟨hbase, ?_, ?_, ?_⟩
  · intro hw hh
    subst hw; subst hh
    rw [hbase]
    norm_num [round2_hundred]
  · intro hw hh
    subst hw; subst hh
    rw [hbase]
    norm_num [round2_twentyfive]
  · intro hgt
    rw [hbase]
    have hx : (256 * 256 : ℚ) ≤ ((w * h : ℕ) : ℚ) := by exact_mod_cast hgt.le
    have hmin : min (((w * h : ℕ) : ℚ) / (256 * 256) * 100) 100 = 100 := by
      rw [min_eq_right]
      rw [div_mul_eq_mul_div, le_div_iff₀ (by norm_num)]
      nlinarith
    rw [hmin, round2_hundred]

/-- Witness for C2: the theorem applied to the concrete 256×256 file
`fGood` and to a 300×300 instance of the clamp branch. -/
theorem resolution_score_formula_witness :
    resolution_score fGood = .ok 100 ∧
    resolution_score fSharp = .ok 100 := by
  refine ⟨(resolution_score_formula fGood 256 256 rfl rfl).2.1 rfl rfl,
    (resolution_score_formula fSharp 256 256 rfl rfl).2.1 rfl rfl⟩

/-! ### Claim C3 -/

/-- Counterexample to claim C3 as stated: for the image `fAlmostSharp`
(Laplacian variance 99.999) at the default threshold 100, `is_blurry`
returns `true`, yet the value returned by `blur_score` — the variance
rounded to two decimals — is exactly 100, which is not below the threshold.
So `is_blurry` is not equivalent to `blur_score < threshold`. -/
theorem is_blurry_blur_score_mismatch :
    is_blurry fAlmostSharp 100 = .ok true ∧
    blur_score fAlmostSharp = .ok 100 ∧ ¬((100 : ℚ) < 100) := by
  refine ⟨?_, ?_, by norm_num⟩
  · rw [is_blurry_ok_iff fAlmostSharp 100 (99999/1000) rfl rfl]
    norm_num
  · rw [blur_score_ok fAlmostSharp (99999/1000) rfl rfl, round2_near_hundred]

/-- Claim C3 amended: `is_blurry(image, threshold)` is true iff the raw
(unrounded) Laplacian variance of the image is below the threshold; the
claimed equivalence with the value `blur_score` returns holds whenever the
variance is unchanged by rounding to two decimals. -/
theorem is_blurry_raw_threshold :
    (∀ (f : ImgFile) (t v : ℚ), f.onDisk = true → f.lapVar = some v →
      (is_blurry f t = .ok true ↔ v < t)) ∧
    (∀ (f : ImgFile) (t v : ℚ), f.onDisk = true → f.lapVar = some v →
      round2 v = v →
      (is_blurry f t = .ok true ↔ (blur_score f = .ok v ∧ v < t))) := by
  constructor
  · exact fun f t v h1 h2 => is_blurry_ok_iff f t v h1 h2
  · intro f t v h1 h2 h3
    have hbs : blur_score f = .ok v := by rw [blur_score_ok f v h1 h2, h3]
    rw [is_blurry_ok_iff f t v h1 h2]
    exact ⟨fun hv => ⟨hbs, hv⟩, fun hv => hv.2⟩

/-- Witness for the amended C3: the theorem applied to the concrete sharp
image `fSharp` (variance 500) at the default threshold. -/
theorem is_blurry_raw_threshold_witness :
    is_blurry fSharp 100 = .ok true ↔ (500 : ℚ) < 100 :=
  is_blurry_raw_threshold.1 fSharp 100 500 rfl rfl

/-! ### Claim C5 -/

/-- Counterexample to claim C5 as stated: the UI's extension validator
accepts the dotless filename `"PNG"`, although it contains no dot and hence
does not satisfy the claimed characterisation. -/
theorem ui_extension_validator_dotless :
    is_valid_image_extension "PNG" = true ∧
    ("PNG".toList.contains '.') = false ∧
    ¬ hasAllowedExtensionSpec "PNG" := by decide

/-- Claim C5 amended: the API validator `allowed_file` returns true exactly
when the filename contains a dot and its lower-cased suffix after the last
dot is an allowed extension, and returns false on the empty filename; the
UI validator `is_valid_image_extension` also returns false on the empty
filename and satisfies the same characterisation for every filename
containing a dot, but accepts dotless filenames whose lower-cased text is
itself an allowed extension. -/
theorem extension_validator_amended :
    (∀ s, allowed_file s = true ↔ hasAllowedExtensionSpec s) ∧
    allowed_file "" = false ∧
    is_valid_image_extension "" = false ∧
    (∀ s, s.toList.contains '.' = true →
      (is_valid_image_extension s = true ↔ hasAllowedExtensionSpec s)) := by
  refine ⟨?_, by decide, by decide, ?_⟩
  · intro s
    unfold allowed_file hasAllowedExtensionSpec
    rw [Bool.and_eq_true]
  · intro s h
    have hne : s ≠ "" := by
      intro he
      subst he
      exact absurd h (by decide)
    unfold is_valid_image_extension hasAllowedExtensionSpec
    rw [if_neg hne]
    exact ⟨fun hx => ⟨h, hx⟩, fun hx => hx.2⟩

/-- Witness for the amended C5: the theorem applied to `"photo.jpg"` and to
the dotted branch of the UI validator. -/
theorem extension_validator_amended_witness :
    (allowed_file "photo.jpg" = true ↔ hasAllowedExtensionSpec "photo.jpg") ∧
    (is_valid_image_extension "photo.jpg" = true ↔
      hasAllowedExtensionSpec "photo.jpg") :=
  ⟨extension_validator_amended.1 "photo.jpg",
    extension_validator_amended.2.2.2 "photo.jpg" (by decide)⟩

/-! ### Claim C6 -/

/-- Counterexample to claim C6 as stated: the two surfaces disagree on the
dotless filename `"jpg"` — the API validator rejects it, the UI validator
accepts it. -/
theorem validators_disagree :
    allowed_file "jpg" = false ∧ is_valid_image_extension "jpg" = true := by
  decide

/-- Claim C6 amended: the API and UI extension validators agree on every
filename that contains a dot and on the empty filename; on a nonempty
dotless filename the API validator always rejects while the UI validator
checks the whole lower-cased name against the allowed set, so they diverge
exactly on dotless names such as `"jpg"`. -/
theorem validators_agreement_amended :
    (∀ s, s.toList.contains '.' = true →
      allowed_file s = is_valid_image_extension s) ∧
    allowed_file "" = is_valid_image_extension "" ∧
    (∀ s, s ≠ "" → s.toList.contains '.' = false →
      allowed_file s = false ∧
      is_valid_image_extension s = ALLOWED_EXTENSIONS.contains (toLowerStr s)) := by
  refine ⟨?_, by decide, ?_⟩
  · intro s h
    have hne : s ≠ "" := by
      intro he
      subst he
      exact absurd h (by decide)
    unfold allowed_file is_valid_image_extension
    rw [h, if_neg hne, Bool.true_and]
  · intro s hne h
    constructor
    · unfold allowed_file
      rw [h, Bool.false_and]
    · unfold is_valid_image_extension
      rw [if_neg hne, lastDotSuffix_no_dot _ h, mk_toList]

/-- Witness for the amended C6: the theorem applied to the dotted filename
`"b.png"`. -/
theorem validators_agreement_amended_witness :
    allowed_file "b.png" = is_valid_image_extension "b.png" :=
  validators_agreement_amended.1 "b.png" (by decide)

/-! ### Claim C7 -/

/-- Claim C7: `is_valid_image` always returns a boolean and never raises:
every decode or verification failure — missing path, unopenable bytes,
failed verify — yields `false` rather than an exception. -/
theorem is_valid_image_never_raises :
    (∀ f, ∃ b, is_valid_image f = .ok b) ∧
    (∀ f, f.onDisk = false ∨ f.dims = none ∨ f.verifyOk = false →
      is_valid_image f = .ok false) := by
  constructor
  · intro f
    unfold is_valid_image
    cases hp : pil_open_verify f
    · exact ⟨false, rfl⟩
    · exact ⟨true, rfl⟩
  · intro f h
    unfold is_valid_image pil_open_verify
    by_cases hd : f.onDisk = false
    · simp [hd]
    · rcases h with h | h | h
      · exact absurd h hd
      · simp [hd, h]
      · cases hdim : f.dims
        · simp [hd]
        · simp [hd, hdim, h]

/-- Witness for C7: the theorem applied to the corrupt upload `fCorrupt`. -/
theorem is_valid_image_never_raises_witness :
    is_valid_image fCorrupt = .ok false :=
  is_valid_image_never_raises.2 fCorrupt (Or.inr (Or.inl rfl))

/-! ### Claim C8 -/

/-- Claim C8: `remove_background` on a missing input path raises
`FileNotFoundError` and leaves the output unwritten; on a failure of the
rembg delegate the failure is wrapped and re-raised with a descriptive
message and the output is left unwritten. -/
theorem remove_background_error_paths :
    (∀ (p : String) (rb : Except String (List ℕ)),
      (remove_background false p rb).1 =
        .error (.fileNotFound ("Input file not found: " ++ p)) ∧
      (remove_background false p rb).2 = none) ∧
    (∀ (p m : String),
      (remove_background true p (.error m)).1 =
        .error (.exn ("Failed to remove background: " ++ m)) ∧
      (remove_background true p (.error m)).2 = none) := by
  exact ⟨fun p rb => ⟨rfl, rfl⟩, fun p m => ⟨rfl, rfl⟩⟩

/-! ### Claim C4 -/

/-- Helper: the concrete analysis outcome for the healthy upload `fGood`. -/
theorem analyze_fGood : analyze_image_quality fGood = .ok resGood := by
  have h1 : pil_open_verify fGood = .ok () := rfl
  have h2 : is_blurry fGood 100 = .ok true :=
    (is_blurry_ok_iff fGood 100 50 rfl rfl).mpr (by norm_num)
  have h3 : resolution_score fGood = .ok 100 := by
    simp only [resolution_score, fGood]
    norm_num [round2_hundred]
  have h4 : blur_score fGood = .ok 50 := by
    rw [blur_score_ok fGood 50 rfl rfl, round2_fifty]
  unfold analyze_image_quality analyze_body
  rw [h1, h2, h3, h4]
  rfl

/-- Claim C4: whenever `analyze_image_quality` returns a result, its
`resolution_score`, `is_blurry` and `blur_score` fields equal the values the
standalone operations return for the same path (threshold 100 for
`is_blurry`), and `clarity` is `"Clear"` exactly when the image is not
blurry and `"Blurry"` exactly when it is; and decodability is verified
first — an image that PIL cannot open or verify makes the whole analysis
raise. -/
theorem analyze_image_quality_composes :
    (∀ (f : ImgFile) (res : AnalysisResult), analyze_image_quality f = .ok res →
      resolution_score f = .ok res.resolution_score ∧
      is_blurry f 100 = .ok res.is_blurry ∧
      blur_score f = .ok res.blur_score ∧
      (res.clarity = "Clear" ↔ res.is_blurry = false) ∧
      (res.clarity = "Blurry" ↔ res.is_blurry = true)) ∧
    (∀ f : ImgFile, f.dims = none ∨ f.verifyOk = false →
      ∃ m, analyze_image_quality f = .error (.exn m)) := by
  constructor
  · intro f res h
    obtain ⟨r1, b1, s1, c1⟩ := res
    have hb : analyze_body f = .ok ⟨r1, b1, s1, c1⟩ := by
      unfold analyze_image_quality wrapAnalysis at h
      cases hbody : analyze_body f with
      | ok r => rw [hbody] at h; injection h with h'; rw [h']
      | error e => rw [hbody] at h; cases h
    unfold analyze_body at hb
    cases hp : pil_open_verify f <;> rw [hp] at hb
    · cases hb
    · cases hib : is_blurry f 100 with
      | error e => rw [hib] at hb; cases hb
      | ok b =>
        rw [hib] at hb
        cases hrs : resolution_score f with
        | error e => rw [hrs] at hb; cases hb
        | ok rs =>
          rw [hrs] at hb
          cases hbs : blur_score f with
          | error e => rw [hbs] at hb; cases hb
          | ok bs =>
            rw [hbs] at hb
            injection hb with hb'
            injection hb' with e1 e2 e3 e4
            subst e1
            subst e2
            subst e3
            subst e4
            refine ⟨?_, ?_, ?_, ?_, ?_⟩
            · simp
            · simp
            · simp
            · cases b <;> simp
            · cases b <;> simp
  · intro f h
    have hp : ∃ e, pil_open_verify f = .error e := by
      unfold pil_open_verify
      by_cases hd : f.onDisk = false
      · rw [if_pos hd]; exact ⟨_, rfl⟩
      · rw [if_neg hd]
        rcases h with h | h
        · rw [h]; exact ⟨_, rfl⟩
        · cases hdim : f.dims with
          | none => exact ⟨_, rfl⟩
          | some d => rw [h]; exact ⟨_, rfl⟩
    obtain ⟨e, hpe⟩ := hp
    exact ⟨"Image quality analysis failed: " ++ pymsg e,
      by simp [analyze_image_quality, analyze_body, wrapAnalysis, hpe]⟩

/-- Witness for C4: the theorem applied to the healthy upload `fGood`, whose
analysis yields `resGood`. -/
theorem analyze_image_quality_composes_witness :
    resolution_score fGood = .ok resGood.resolution_score ∧
    is_blurry fGood 100 = .ok resGood.is_blurry ∧
    blur_score fGood = .ok resGood.blur_score ∧
    (resGood.clarity = "Clear" ↔ resGood.is_blurry = false) ∧
    (resGood.clarity = "Blurry" ↔ resGood.is_blurry = true) :=
  analyze_image_quality_composes.1 fGood resGood analyze_fGood

/-! ### Claim C10 -/

/-- Claim C10: every error `analyze_image_quality` raises is the single
generic exception whose message begins with `Image quality analysis
failed`; in particular a missing file — for which the standalone operations
raise `FileNotFoundError` — surfaces as that same generic exception, so the
`FileNotFoundError` class never propagates out. -/
theorem analyze_errors_generic :
    (∀ (f : ImgFile) (e : PyErr), analyze_image_quality f = .error e →
      ∃ m, e = .exn ("Image quality analysis failed: " ++ m)) ∧
    (∀ f : ImgFile, f.onDisk = false →
      analyze_image_quality f =
        .error (.exn ("Image quality analysis failed: " ++ missingMsg f))) := by
  constructor
  · intro f e h
    unfold analyze_image_quality wrapAnalysis at h
    cases hbody : analyze_body f with
    | ok r => rw [hbody] at h; cases h
    | error e' =>
      rw [hbody] at h
      injection h with h'
      exact ⟨pymsg e', h'.symm⟩
  · intro f h
    have hp : pil_open_verify f = .error (.fileNotFound (missingMsg f)) := by
      unfold pil_open_verify
      rw [h]
      rfl
    simp [analyze_image_quality, analyze_body, wrapAnalysis, hp, pymsg]

/-- Witness for C10: the theorem applied to the missing path `fMissing`. -/
theorem analyze_errors_generic_witness :
    analyze_image_quality fMissing =
      .error (.exn ("Image quality analysis failed: " ++ missingMsg fMissing)) :=
  analyze_errors_generic.2 fMissing rfl

/-! ### Claim C9 -/

/-- Claim C9: in the `/analyze` handler a disallowed extension produces a
client error with no decode attempted, while an allowed extension with
undecodable bytes passes the extension check, fails the decodability check
after a decode attempt, and produces a different client error; both are
400-class responses. -/
theorem analyze_handler_validation :
    (∀ r : ApiRequest, r.hasImageField = true → r.filename ≠ "" →
      allowed_file r.filename = false →
      analyze_image r = (.badExtension, none, false)) ∧
    (∀ r : ApiRequest, r.hasImageField = true → r.filename ≠ "" →
      allowed_file r.filename = true → is_valid_image r.staged = .ok false →
      analyze_image r = (.notValidImage, some false, true)) ∧
    ApiResp.notValidImage ≠ ApiResp.badExtension ∧
    statusCode .badExtension = 400 ∧ statusCode .notValidImage = 400 := by
  refine ⟨?_, ?_, by decide, rfl, rfl⟩
  · intro r h1 h2 h3
    unfold analyze_image
    rw [h1, h3]
    simp [h2]
  · intro r h1 h2 h3 h4
    unfold analyze_image
    rw [h1, h3, h4]
    simp [h2]

/-- Witness for C9: the theorem applied to a `photo.txt` upload and to a
corrupted upload named `photo.jpg`. -/
theorem analyze_handler_validation_witness :
    analyze_image reqBadExt = (.badExtension, none, false) ∧
    analyze_image reqCorrupt = (.notValidImage, some false, true) :=
  ⟨analyze_handler_validation.1 reqBadExt rfl (by decide) (by decide),
   analyze_handler_validation.2.1 reqCorrupt rfl (by decide) (by decide) rfl⟩

/-! ### Claim C1 -/

/-- Counterexample to claim C1 as stated: the API background-removal
request `reqCorrupt` reaches the STAGED state (both temp files are created),
exits through the invalid-image error path, and at handler exit the output
temp file still remains on disk — the `finally` block of `remove_bg` unlinks
only the input temp file, so not every temp file created for the request is
deleted. -/
theorem remove_bg_output_temp_leak :
    (remove_bg reqCorrupt).2 = some (false, true) ∧
    (remove_bg reqCorrupt).2 ≠ some (false, false) := by decide

/-- Claim C1 amended: on every exit path, the `/analyze` handler either
never stages a temp file or deletes it, and the UI background-removal
handler either never stages or deletes both of its temp files; the API
background-removal handler, once staged, always deletes its input temp file
but always leaves its output temp file on disk at handler exit. -/
theorem temp_cleanup_amended :
    (∀ r : ApiRequest,
      (analyze_image r).2.1 = none ∨ (analyze_image r).2.1 = some false) ∧
    (∀ r : ApiRequest,
      (remove_bg r).2 = none ∨ (remove_bg r).2 = some (false, true)) ∧
    (∀ r : UiRequest,
      (show_background_removal r).2 = none ∨
        (show_background_removal r).2 = some (false, false)) := by
  refine ⟨?_, ?_, ?_⟩
  · intro r
    unfold analyze_image
    repeat' split
    all_goals simp
  · intro r
    unfold remove_bg
    repeat' split
    all_goals simp
  · intro r
    unfold show_background_removal
    repeat' split
    all_goals simp

end VisionGuard
